import Mathlib

/-!
Verification of the enterprise-messaging API client (`lib/api_ip.js`).

The module exports a family of token-gated operations.  Each one awaits
`this.ensureAccessToken()`, builds a URL by concatenating the configured
API base URL (`this.prefix`), a fixed operation path and
`"?access_token=" ++ token`, and forwards the call to the injected
transport `this.request`, returning its result unchanged.  One pure
helper, `getAuthorizeURL`, builds an OAuth redirect URL with Node's
`querystring.stringify`.

The embedding below models the host object (`this`) as an explicit
record, promise rejection as `Except`, and the transport as a
state-threading function so that the exact sequence of transport
invocations made by an operation is observable.
-/

set_option maxRecDepth 100000

namespace CoWechat

/-- JSON-like values, used for the opaque payloads the client forwards
(user records, id lists, query parameters). -/
inductive Json : Type where
  | null : Json
  | str (s : String) : Json
  | num (n : Int) : Json
  | bool (b : Bool) : Json
  | arr (elems : List Json) : Json
  | obj (fields : List (String × Json)) : Json
deriving Repr

/-- Options passed to the injected transport.  The source uses two
shapes: `{ data: {...} }` carrying query parameters, and the JSON POST
body produced by the `postJSON` helper. -/
inductive ReqOpts : Type where
  | queryData (d : Json) : ReqOpts
  | jsonBody (d : Json) : ReqOpts
deriving Repr

/-- Modelled from the spec: the JSON-body construction helper
(`require('./util').postJSON`, whose file is not part of the sources
given) wraps a structured payload as a JSON POST body for the transport,
forwarding the payload itself without transforming it. -/
def postJSON (d : Json) : ReqOpts :=
  ReqOpts.jsonBody d

/-- Result of `ensureAccessToken`: the source destructures
`{ accessToken }` from it. -/
structure AccessTokenResult : Type where
  accessToken : String
deriving Repr

/-- The host object (`this`) on which the operations are installed:
the configuration fields `prefix` (here `apiPrefix`, since `prefix` is a
Lean keyword), `corpid` and `agentid`, and the injected token accessor.
The accessor is modelled by the outcome of awaiting it: `Except.error e`
when the promise rejects with `e`, `Except.ok t` when it resolves. -/
structure Host (ε : Type) : Type where
  apiPrefix : String
  corpid : String
  agentid : String
  ensureAccessToken : Except ε AccessTokenResult

/-- The injected transport `this.request`, modelled with explicit state
threading so invocations are observable: given the current state, a URL
and optional options, it returns the next state and its result. -/
def Trans (σ ρ : Type) : Type :=
  σ → String → Option ReqOpts → σ × ρ

/-- One recorded transport invocation: the URL and options it was
called with. -/
structure Request : Type where
  url : String
  opts : Option ReqOpts
deriving Repr

/-- The logging transport used in the statements below: it appends each
invocation to the state and answers with `f url opts`. -/
def logTrans {ρ : Type} (f : String → Option ReqOpts → ρ) : Trans (List Request) ρ :=
  fun s url opts => (s ++ [⟨url, opts⟩], f url opts)

/-- `exports.getCallbackIp`: resolve the token, GET
`prefix ++ "getcallbackip?access_token=" ++ token` with no options. -/
def getCallbackIp {ε σ ρ : Type} (self : Host ε) (request : Trans σ ρ) (s : σ) :
    σ × Except ε ρ :=
  match self.ensureAccessToken with
  | .error e => (s, .error e)
  | .ok t =>
    let url := self.apiPrefix ++ "getcallbackip?access_token=" ++ t.accessToken
    let (s2, r) := request s url none
    (s2, .ok r)

/-- `exports.createUser`: resolve the token, POST the user record as a
JSON body to `prefix ++ "user/create?access_token=" ++ token`. -/
def createUser {ε σ ρ : Type} (self : Host ε) (user : Json) (request : Trans σ ρ) (s : σ) :
    σ × Except ε ρ :=
  match self.ensureAccessToken with
  | .error e => (s, .error e)
  | .ok t =>
    let url := self.apiPrefix ++ "user/create?access_token=" ++ t.accessToken
    let (s2, r) := request s url (some (postJSON user))
    (s2, .ok r)

/-- `exports.updateUser`: resolve the token, POST the user record as a
JSON body to `prefix ++ "user/update?access_token=" ++ token`. -/
def updateUser {ε σ ρ : Type} (self : Host ε) (user : Json) (request : Trans σ ρ) (s : σ) :
    σ × Except ε ρ :=
  match self.ensureAccessToken with
  | .error e => (s, .error e)
  | .ok t =>
    let url := self.apiPrefix ++ "user/update?access_token=" ++ t.accessToken
    let (s2, r) := request s url (some (postJSON user))
    (s2, .ok r)

/-- The first of the two functions the source assigns to
`exports.deleteUser` (delete a single member): resolve the token and
call `prefix ++ "user/delete?access_token=" ++ token` with
`{ data: { userid: id } }`. -/
def deleteUserSingle {ε σ ρ : Type} (self : Host ε) (id : Json) (request : Trans σ ρ) (s : σ) :
    σ × Except ε ρ :=
  match self.ensureAccessToken with
  | .error e => (s, .error e)
  | .ok t =>
    let url := self.apiPrefix ++ "user/delete?access_token=" ++ t.accessToken
    let opts := ReqOpts.queryData (Json.obj [("userid", id)])
    let (s2, r) := request s url (some opts)
    (s2, .ok r)

/-- The second of the two functions the source assigns to
`exports.deleteUser` (batch delete): resolve the token and POST
`{ useridlist: users }` as a JSON body to
`prefix ++ "user/batchdelete?access_token=" ++ token`. -/
def deleteUserBatch {ε σ ρ : Type} (self : Host ε) (users : Json) (request : Trans σ ρ) (s : σ) :
    σ × Except ε ρ :=
  match self.ensureAccessToken with
  | .error e => (s, .error e)
  | .ok t =>
    let url := self.apiPrefix ++ "user/batchdelete?access_token=" ++ t.accessToken
    let opts := Json.obj [("useridlist", users)]
    let (s2, r) := request s url (some (postJSON opts))
    (s2, .ok r)

/-- The exported `deleteUser`.  The source assigns to
`exports.deleteUser` twice; in CommonJS the second assignment overwrites
the first, so the exported name denotes the batch-delete function. -/
def deleteUser {ε σ ρ : Type} : Host ε → Json → Trans σ ρ → σ → σ × Except ε ρ :=
  deleteUserBatch

/-- `exports.getUser`: resolve the token and call
`prefix ++ "user/get?access_token=" ++ token` with
`{ data: { userid: id } }`. -/
def getUser {ε σ ρ : Type} (self : Host ε) (id : Json) (request : Trans σ ρ) (s : σ) :
    σ × Except ε ρ :=
  match self.ensureAccessToken with
  | .error e => (s, .error e)
  | .ok t =>
    let url := self.apiPrefix ++ "user/get?access_token=" ++ t.accessToken
    let opts := ReqOpts.queryData (Json.obj [("userid", id)])
    let (s2, r) := request s url (some opts)
    (s2, .ok r)

/-- `exports.getDepartmentUsers`: resolve the token and call
`prefix ++ "user/simplelist?access_token=" ++ token` with
`{ data: { department_id, fetch_child } }`. -/
def getDepartmentUsers {ε σ ρ : Type} (self : Host ε) (departmentId fetchChild : Json)
    (request : Trans σ ρ) (s : σ) : σ × Except ε ρ :=
  match self.ensureAccessToken with
  | .error e => (s, .error e)
  | .ok t =>
    let url := self.apiPrefix ++ "user/simplelist?access_token=" ++ t.accessToken
    let opts := ReqOpts.queryData
      (Json.obj [("department_id", departmentId), ("fetch_child", fetchChild)])
    let (s2, r) := request s url (some opts)
    (s2, .ok r)

/-- `exports.getDepartmentUsersDetail`: resolve the token and call
`prefix ++ "user/list?access_token=" ++ token` with
`{ data: { department_id, fetch_child } }`. -/
def getDepartmentUsersDetail {ε σ ρ : Type} (self : Host ε) (departmentId fetchChild : Json)
    (request : Trans σ ρ) (s : σ) : σ × Except ε ρ :=
  match self.ensureAccessToken with
  | .error e => (s, .error e)
  | .ok t =>
    let url := self.apiPrefix ++ "user/list?access_token=" ++ t.accessToken
    let opts := ReqOpts.queryData
      (Json.obj [("department_id", departmentId), ("fetch_child", fetchChild)])
    let (s2, r) := request s url (some opts)
    (s2, .ok r)

/-- `exports.inviteUser`: resolve the token and POST
`{ user, party, tag }` as a JSON body to
`prefix ++ "batch/invite?access_token=" ++ token`. -/
def inviteUser {ε σ ρ : Type} (self : Host ε) (user party tag : Json)
    (request : Trans σ ρ) (s : σ) : σ × Except ε ρ :=
  match self.ensureAccessToken with
  | .error e => (s, .error e)
  | .ok t =>
    let url := self.apiPrefix ++ "batch/invite?access_token=" ++ t.accessToken
    let opts := Json.obj [("user", user), ("party", party), ("tag", tag)]
    let (s2, r) := request s url (some (postJSON opts))
    (s2, .ok r)

/-- `exports.getUserIdByCode`: resolve the token and call
`prefix ++ "user/getuserinfo?access_token=" ++ token` with
`{ data: { code, agentid: this.agentid } }`. -/
def getUserIdByCode {ε σ ρ : Type} (self : Host ε) (code : Json)
    (request : Trans σ ρ) (s : σ) : σ × Except ε ρ :=
  match self.ensureAccessToken with
  | .error e => (s, .error e)
  | .ok t =>
    let url := self.apiPrefix ++ "user/getuserinfo?access_token=" ++ t.accessToken
    let opts := ReqOpts.queryData
      (Json.obj [("code", code), ("agentid", Json.str self.agentid)])
    let (s2, r) := request s url (some opts)
    (s2, .ok r)

/-- Hexadecimal digit for percent-encoding (uppercase, as Node emits). -/
def hexDigit (n : Nat) : Char :=
  if n < 10 then Char.ofNat (48 + n) else Char.ofNat (55 + n)

/-- UTF-8 bytes of a character, for percent-encoding non-ASCII input. -/
def utf8Bytes (c : Char) : List Nat :=
  let n := c.toNat
  if n < 128 then [n]
  else if n < 2048 then [192 + n / 64, 128 + n % 64]
  else if n < 65536 then [224 + n / 4096, 128 + n / 64 % 64, 128 + n % 64]
  else [240 + n / 262144, 128 + n / 4096 % 64, 128 + n / 64 % 64, 128 + n % 64]

/-- Characters Node's `querystring.escape` leaves unencoded: ASCII
alphanumerics and `- _ . ! ~ * ( )` and the single quote. -/
def isUnreserved (c : Char) : Bool :=
  let n := c.toNat
  (65 ≤ n && n ≤ 90) || (97 ≤ n && n ≤ 122) || (48 ≤ n && n ≤ 57) ||
    n == 45 || n == 95 || n == 46 || n == 33 || n == 126 ||
    n == 42 || n == 39 || n == 40 || n == 41

/-- Percent-encode one byte as `%XX`. -/
def escByte (b : Nat) : String :=
  String.mk [Char.ofNat 37, hexDigit (b / 16), hexDigit (b % 16)]

/-- Percent-encode one character. -/
def escChar (c : Char) : String :=
  if isUnreserved c then String.singleton c
  else String.join ((utf8Bytes c).map escByte)

/-- Node's `querystring.escape`: percent-encode every reserved
character of the string. -/
def qsEscape (s : String) : String :=
  String.join (s.data.map escChar)

/-- Node's `querystring.stringify` restricted to string values: escape
every key and value and join `key=value` pairs with `&`. -/
def qsStringify : List (String × String) → String
  | [] => ""
  | [(k, v)] => qsEscape k ++ "=" ++ qsEscape v
  | (k, v) :: rest => qsEscape k ++ "=" ++ qsEscape v ++ "&" ++ qsStringify rest

/-- JavaScript `x || d` for an optional string argument: the default is
taken when the argument is absent (`undefined`) or the empty string,
both of which are falsy. -/
def jsOrDefault (x : Option String) (d : String) : String :=
  match x with
  | none => d
  | some s => if s = "" then d else s

/-- `exports.getAuthorizeURL`: build the OAuth redirect URL from the
configured corp id and the caller's redirect/state/scope, with
`response_type` fixed to `"code"`, scope defaulting to `"snsapi_base"`
and state defaulting to the empty string. -/
def getAuthorizeURL {ε : Type} (self : Host ε) (redirect : String)
    (state scope : Option String) : String :=
  let url := "https://open.weixin.qq.com/connect/oauth2/authorize"
  let info := [("appid", self.corpid), ("redirect_uri", redirect),
    ("response_type", "code"), ("scope", jsOrDefault scope "snsapi_base"),
    ("state", jsOrDefault state "")]
  url ++ "?" ++ qsStringify info ++ "#wechat_redirect"

/-- A concrete host used to instantiate the theorems below. -/
def sampleHost : Host String :=
  { apiPrefix := "https://qyapi.weixin.qq.com/cgi-bin/"
    corpid := "corp1"
    agentid := "1000002"
    ensureAccessToken := .ok ⟨"TOK"⟩ }

/-- A concrete host whose token accessor rejects. -/
def failingHost : Host String :=
  { apiPrefix := "https://qyapi.weixin.qq.com/cgi-bin/"
    corpid := "corp1"
    agentid := "1000002"
    ensureAccessToken := .error "token fetch failed" }

/-- A concrete transport answer used by the witnesses: echo the call. -/
def echoReq : String → Option ReqOpts → String × Option ReqOpts :=
  fun url opts => (url, opts)

/-- The URL shape the specification prescribes for a token-gated
operation: the base URL, the operation path, the literal
`"?access_token="` and the token. -/
def gatedURL (p path tok : String) : String :=
  p ++ path ++ "?access_token=" ++ tok

theorem gatedURL_path (p path tok merged : String)
    (hm : path ++ "?access_token=" = merged) :
    gatedURL p path tok = p ++ merged ++ tok := by
  simp only [gatedURL]
  rw [String.append_assoc p path, hm]

/-- C1: for every token-gated operation, under a resolved token the URL
handed to the injected transport is the base URL, then the operation's
fixed path, then the literal `"?access_token="`, then the token. -/
theorem gated_operations_url_format {ε ρ : Type} (h : Host ε) (tok : String)
    (hok : h.ensureAccessToken = .ok ⟨tok⟩)
    (hpre : h.apiPrefix ≠ "") (htok : tok ≠ "")
    (f : String → Option ReqOpts → ρ) (u v ul id did fc iu ip it code : Json) :
    (getCallbackIp h (logTrans f) []).1.map Request.url =
      [gatedURL h.apiPrefix "getcallbackip" tok] ∧
    (createUser h u (logTrans f) []).1.map Request.url =
      [gatedURL h.apiPrefix "user/create" tok] ∧
    (updateUser h v (logTrans f) []).1.map Request.url =
      [gatedURL h.apiPrefix "user/update" tok] ∧
    (deleteUser h ul (logTrans f) []).1.map Request.url =
      [gatedURL h.apiPrefix "user/batchdelete" tok] ∧
    (getUser h id (logTrans f) []).1.map Request.url =
      [gatedURL h.apiPrefix "user/get" tok] ∧
    (getDepartmentUsers h did fc (logTrans f) []).1.map Request.url =
      [gatedURL h.apiPrefix "user/simplelist" tok] ∧
    (getDepartmentUsersDetail h did fc (logTrans f) []).1.map Request.url =
      [gatedURL h.apiPrefix "user/list" tok] ∧
    (inviteUser h iu ip it (logTrans f) []).1.map Request.url =
      [gatedURL h.apiPrefix "batch/invite" tok] ∧
    (getUserIdByCode h code (logTrans f) []).1.map Request.url =
      [gatedURL h.apiPrefix "user/getuserinfo" tok] := by
  refine ⟨?_, ?_, ?_, ?_, ?_, ?_, ?_, ?_, ?_⟩
  · simp [getCallbackIp, logTrans, hok,
      gatedURL_path h.apiPrefix "getcallbackip" tok "getcallbackip?access_token=" (by decide)]
  · simp [createUser, logTrans, hok,
      gatedURL_path h.apiPrefix "user/create" tok "user/create?access_token=" (by decide)]
  · simp [updateUser, logTrans, hok,
      gatedURL_path h.apiPrefix "user/update" tok "user/update?access_token=" (by decide)]
  · simp [deleteUser, deleteUserBatch, logTrans, hok,
      gatedURL_path h.apiPrefix "user/batchdelete" tok "user/batchdelete?access_token=" (by decide)]
  · simp [getUser, logTrans, hok,
      gatedURL_path h.apiPrefix "user/get" tok "user/get?access_token=" (by decide)]
  · simp [getDepartmentUsers, logTrans, hok,
      gatedURL_path h.apiPrefix "user/simplelist" tok "user/simplelist?access_token=" (by decide)]
  · simp [getDepartmentUsersDetail, logTrans, hok,
      gatedURL_path h.apiPrefix "user/list" tok "user/list?access_token=" (by decide)]
  · simp [inviteUser, logTrans, hok,
      gatedURL_path h.apiPrefix "batch/invite" tok "batch/invite?access_token=" (by decide)]
  · simp [getUserIdByCode, logTrans, hok,
      gatedURL_path h.apiPrefix "user/getuserinfo" tok "user/getuserinfo?access_token=" (by decide)]

/-- Witness for C1 at a concrete host, token and inputs. -/
theorem gated_operations_url_format_instance :
    sampleHost.ensureAccessToken = .ok ⟨"TOK"⟩ ∧
    ((getCallbackIp sampleHost (logTrans echoReq) []).1.map Request.url =
      [gatedURL sampleHost.apiPrefix "getcallbackip" "TOK"] ∧
    (createUser sampleHost (Json.str "u") (logTrans echoReq) []).1.map Request.url =
      [gatedURL sampleHost.apiPrefix "user/create" "TOK"] ∧
    (updateUser sampleHost (Json.str "v") (logTrans echoReq) []).1.map Request.url =
      [gatedURL sampleHost.apiPrefix "user/update" "TOK"] ∧
    (deleteUser sampleHost (Json.arr [Json.str "a"]) (logTrans echoReq) []).1.map Request.url =
      [gatedURL sampleHost.apiPrefix "user/batchdelete" "TOK"] ∧
    (getUser sampleHost (Json.str "id") (logTrans echoReq) []).1.map Request.url =
      [gatedURL sampleHost.apiPrefix "user/get" "TOK"] ∧
    (getDepartmentUsers sampleHost (Json.num 1) (Json.num 0) (logTrans echoReq) []).1.map
      Request.url = [gatedURL sampleHost.apiPrefix "user/simplelist" "TOK"] ∧
    (getDepartmentUsersDetail sampleHost (Json.num 1) (Json.num 0) (logTrans echoReq) []).1.map
      Request.url = [gatedURL sampleHost.apiPrefix "user/list" "TOK"] ∧
    (inviteUser sampleHost (Json.arr []) (Json.arr []) (Json.arr []) (logTrans echoReq) []).1.map
      Request.url = [gatedURL sampleHost.apiPrefix "batch/invite" "TOK"] ∧
    (getUserIdByCode sampleHost (Json.str "c") (logTrans echoReq) []).1.map Request.url =
      [gatedURL sampleHost.apiPrefix "user/getuserinfo" "TOK"]) :=
  ⟨rfl, gated_operations_url_format sampleHost "TOK" rfl (by decide) (by decide) echoReq
    (Json.str "u") (Json.str "v") (Json.arr [Json.str "a"]) (Json.str "id") (Json.num 1)
    (Json.num 0) (Json.arr []) (Json.arr []) (Json.arr []) (Json.str "c")⟩

/-- C2: when the token accessor rejects with `e`, every token-gated
operation rejects with that same `e`, and the transport is never
invoked: for an arbitrary transport the state comes back unchanged and
the outcome does not depend on the transport at all. -/
theorem gated_operations_propagate_accessor_error {ε σ ρ : Type} (h : Host ε) (e : ε)
    (herr : h.ensureAccessToken = .error e) (trans : Trans σ ρ) (s : σ)
    (u v ul id did fc iu ip it code : Json) :
    getCallbackIp h trans s = (s, .error e) ∧
    createUser h u trans s = (s, .error e) ∧
    updateUser h v trans s = (s, .error e) ∧
    deleteUser h ul trans s = (s, .error e) ∧
    getUser h id trans s = (s, .error e) ∧
    getDepartmentUsers h did fc trans s = (s, .error e) ∧
    getDepartmentUsersDetail h did fc trans s = (s, .error e) ∧
    inviteUser h iu ip it trans s = (s, .error e) ∧
    getUserIdByCode h code trans s = (s, .error e) := by
  refine ⟨?_, ?_, ?_, ?_, ?_, ?_, ?_, ?_, ?_⟩ <;>
    simp [getCallbackIp, createUser, updateUser, deleteUser, deleteUserBatch, getUser,
      getDepartmentUsers, getDepartmentUsersDetail, inviteUser, getUserIdByCode, herr]

/-- Witness for C2 at a concrete rejecting host. -/
theorem gated_operations_propagate_accessor_error_instance :
    failingHost.ensureAccessToken = .error "token fetch failed" ∧
    (getCallbackIp failingHost (logTrans echoReq) [] = ([], .error "token fetch failed") ∧
    createUser failingHost (Json.str "u") (logTrans echoReq) [] =
      ([], .error "token fetch failed") ∧
    updateUser failingHost (Json.str "v") (logTrans echoReq) [] =
      ([], .error "token fetch failed") ∧
    deleteUser failingHost (Json.arr []) (logTrans echoReq) [] =
      ([], .error "token fetch failed") ∧
    getUser failingHost (Json.str "id") (logTrans echoReq) [] =
      ([], .error "token fetch failed") ∧
    getDepartmentUsers failingHost (Json.num 1) (Json.num 0) (logTrans echoReq) [] =
      ([], .error "token fetch failed") ∧
    getDepartmentUsersDetail failingHost (Json.num 1) (Json.num 0) (logTrans echoReq) [] =
      ([], .error "token fetch failed") ∧
    inviteUser failingHost (Json.arr []) (Json.arr []) (Json.arr []) (logTrans echoReq) [] =
      ([], .error "token fetch failed") ∧
    getUserIdByCode failingHost (Json.str "c") (logTrans echoReq) [] =
      ([], .error "token fetch failed")) :=
  ⟨rfl, gated_operations_propagate_accessor_error failingHost "token fetch failed" rfl
    (logTrans echoReq) [] (Json.str "u") (Json.str "v") (Json.arr []) (Json.str "id")
    (Json.num 1) (Json.num 0) (Json.arr []) (Json.arr []) (Json.arr []) (Json.str "c")⟩

/-- C3: the exported `deleteUser` is the later-defined batch-delete
function: it issues exactly one POST of `{ useridlist: x }` to
`user/batchdelete`, its URL is never the single-delete URL, and its
options are never the single-delete's query-data form. -/
theorem deleteUser_is_batch_delete {ε ρ : Type} (h : Host ε) (tok : String)
    (hok : h.ensureAccessToken = .ok ⟨tok⟩) (f : String → Option ReqOpts → ρ) (x : Json) :
    (deleteUser h x (logTrans f) [] =
      ([⟨h.apiPrefix ++ "user/batchdelete?access_token=" ++ tok,
          some (postJSON (Json.obj [("useridlist", x)]))⟩],
        .ok (f (h.apiPrefix ++ "user/batchdelete?access_token=" ++ tok)
          (some (postJSON (Json.obj [("useridlist", x)])))))) ∧
    (h.apiPrefix ++ "user/batchdelete?access_token=" ++ tok ≠
      h.apiPrefix ++ "user/delete?access_token=" ++ tok) ∧
    (∀ d : Json, postJSON (Json.obj [("useridlist", x)]) ≠ ReqOpts.queryData d) := by
  refine ⟨?_, ?_, ?_⟩
  · simp [deleteUser, deleteUserBatch, logTrans, hok]
  · intro heq
    have hlen := congrArg String.length heq
    have h1 : ("user/batchdelete?access_token=" : String).length = 30 := by decide
    have h2 : ("user/delete?access_token=" : String).length = 25 := by decide
    simp [String.length_append, h1, h2] at hlen
  · intro d hd
    simp [postJSON] at hd

/-- Witness for C3 at a concrete host and id list. -/
theorem deleteUser_is_batch_delete_instance :
    sampleHost.ensureAccessToken = .ok ⟨"TOK"⟩ ∧
    ((deleteUser sampleHost (Json.arr [Json.str "a"]) (logTrans echoReq) [] =
      ([⟨sampleHost.apiPrefix ++ "user/batchdelete?access_token=" ++ "TOK",
          some (postJSON (Json.obj [("useridlist", Json.arr [Json.str "a"])]))⟩],
        .ok (echoReq (sampleHost.apiPrefix ++ "user/batchdelete?access_token=" ++ "TOK")
          (some (postJSON (Json.obj [("useridlist", Json.arr [Json.str "a"])])))))) ∧
    (sampleHost.apiPrefix ++ "user/batchdelete?access_token=" ++ "TOK" ≠
      sampleHost.apiPrefix ++ "user/delete?access_token=" ++ "TOK") ∧
    (∀ d : Json, postJSON (Json.obj [("useridlist", Json.arr [Json.str "a"])]) ≠
      ReqOpts.queryData d)) :=
  ⟨rfl, deleteUser_is_batch_delete sampleHost "TOK" rfl echoReq (Json.arr [Json.str "a"])⟩

/-- C5: scalar parameters appear verbatim in the outgoing query
parameters under their documented keys: `getUser` and the single-user
delete send `{ userid: id }`, and both department listings send
`{ department_id, fetch_child }`. -/
theorem scalar_params_forwarded_verbatim {ε ρ : Type} (h : Host ε) (tok : String)
    (hok : h.ensureAccessToken = .ok ⟨tok⟩) (f : String → Option ReqOpts → ρ)
    (id did fc : Json) :
    (getUser h id (logTrans f) []).1.map Request.opts =
      [some (ReqOpts.queryData (Json.obj [("userid", id)]))] ∧
    (deleteUserSingle h id (logTrans f) []).1.map Request.opts =
      [some (ReqOpts.queryData (Json.obj [("userid", id)]))] ∧
    (getDepartmentUsers h did fc (logTrans f) []).1.map Request.opts =
      [some (ReqOpts.queryData
        (Json.obj [("department_id", did), ("fetch_child", fc)]))] ∧
    (getDepartmentUsersDetail h did fc (logTrans f) []).1.map Request.opts =
      [some (ReqOpts.queryData
        (Json.obj [("department_id", did), ("fetch_child", fc)]))] := by
  refine ⟨?_, ?_, ?_, ?_⟩ <;>
    simp [getUser, deleteUserSingle, getDepartmentUsers, getDepartmentUsersDetail,
      logTrans, hok]

/-- Witness for C5 at a concrete host and scalar arguments. -/
theorem scalar_params_forwarded_verbatim_instance :
    sampleHost.ensureAccessToken = .ok ⟨"TOK"⟩ ∧
    ((getUser sampleHost (Json.str "lisi") (logTrans echoReq) []).1.map Request.opts =
      [some (ReqOpts.queryData (Json.obj [("userid", Json.str "lisi")]))] ∧
    (deleteUserSingle sampleHost (Json.str "lisi") (logTrans echoReq) []).1.map Request.opts =
      [some (ReqOpts.queryData (Json.obj [("userid", Json.str "lisi")]))] ∧
    (getDepartmentUsers sampleHost (Json.num 1) (Json.num 0) (logTrans echoReq) []).1.map
      Request.opts = [some (ReqOpts.queryData
        (Json.obj [("department_id", Json.num 1), ("fetch_child", Json.num 0)]))] ∧
    (getDepartmentUsersDetail sampleHost (Json.num 1) (Json.num 0) (logTrans echoReq) []).1.map
      Request.opts = [some (ReqOpts.queryData
        (Json.obj [("department_id", Json.num 1), ("fetch_child", Json.num 0)]))]) :=
  ⟨rfl, scalar_params_forwarded_verbatim sampleHost "TOK" rfl echoReq
    (Json.str "lisi") (Json.num 1) (Json.num 0)⟩

/-- C6: structured records pass through unchanged: the JSON body handed
to the transport by `createUser` and `updateUser` is exactly the input
record, and by `inviteUser` exactly the object holding the three inputs
under their own names. -/
theorem structured_body_passthrough {ε ρ : Type} (h : Host ε) (tok : String)
    (hok : h.ensureAccessToken = .ok ⟨tok⟩) (f : String → Option ReqOpts → ρ)
    (u v iu ip it : Json) :
    (createUser h u (logTrans f) []).1.map Request.opts =
      [some (ReqOpts.jsonBody u)] ∧
    (updateUser h v (logTrans f) []).1.map Request.opts =
      [some (ReqOpts.jsonBody v)] ∧
    (inviteUser h iu ip it (logTrans f) []).1.map Request.opts =
      [some (ReqOpts.jsonBody
        (Json.obj [("user", iu), ("party", ip), ("tag", it)]))] := by
  refine ⟨?_, ?_, ?_⟩ <;>
    simp [createUser, updateUser, inviteUser, postJSON, logTrans, hok]

/-- Witness for C6 at a concrete host and records. -/
theorem structured_body_passthrough_instance :
    sampleHost.ensureAccessToken = .ok ⟨"TOK"⟩ ∧
    ((createUser sampleHost (Json.obj [("userid", Json.str "zhangsan")])
        (logTrans echoReq) []).1.map Request.opts =
      [some (ReqOpts.jsonBody (Json.obj [("userid", Json.str "zhangsan")]))] ∧
    (updateUser sampleHost (Json.obj [("userid", Json.str "lisi")])
        (logTrans echoReq) []).1.map Request.opts =
      [some (ReqOpts.jsonBody (Json.obj [("userid", Json.str "lisi")]))] ∧
    (inviteUser sampleHost (Json.arr [Json.str "a"]) (Json.arr []) (Json.arr [])
        (logTrans echoReq) []).1.map Request.opts =
      [some (ReqOpts.jsonBody (Json.obj [("user", Json.arr [Json.str "a"]),
        ("party", Json.arr []), ("tag", Json.arr [])]))]) :=
  ⟨rfl, structured_body_passthrough sampleHost "TOK" rfl echoReq
    (Json.obj [("userid", Json.str "zhangsan")]) (Json.obj [("userid", Json.str "lisi")])
    (Json.arr [Json.str "a"]) (Json.arr []) (Json.arr [])⟩

/-- C7: from any starting state, `getCallbackIp` invokes the transport
exactly once — with `prefix ++ "getcallbackip?access_token=" ++ token`
and no options — and returns the transport's answer unmodified. -/
theorem getCallbackIp_single_request_passthrough {ε ρ : Type} (h : Host ε) (tok : String)
    (hok : h.ensureAccessToken = .ok ⟨tok⟩) (f : String → Option ReqOpts → ρ)
    (s : List Request) :
    getCallbackIp h (logTrans f) s =
      (s ++ [⟨h.apiPrefix ++ "getcallbackip?access_token=" ++ tok, none⟩],
        .ok (f (h.apiPrefix ++ "getcallbackip?access_token=" ++ tok) none)) := by
  simp [getCallbackIp, logTrans, hok]

/-- Witness for C7 at a concrete host. -/
theorem getCallbackIp_single_request_passthrough_instance :
    sampleHost.ensureAccessToken = .ok ⟨"TOK"⟩ ∧
    getCallbackIp sampleHost (logTrans echoReq) [] =
      ([⟨sampleHost.apiPrefix ++ "getcallbackip?access_token=" ++ "TOK", none⟩],
        .ok (echoReq (sampleHost.apiPrefix ++ "getcallbackip?access_token=" ++ "TOK") none)) :=
  ⟨rfl, getCallbackIp_single_request_passthrough sampleHost "TOK" rfl echoReq []⟩

/-- C8: `getUserIdByCode` sends `{ code, agentid }` to
`user/getuserinfo` with the resolved token, and it is the only
operation that reads the `agentid` configuration field: every other
operation, and `getAuthorizeURL`, is invariant under changing it. -/
theorem getUserIdByCode_sends_code_and_agentid {ε σ ρ : Type} (h : Host ε) (tok : String)
    (hok : h.ensureAccessToken = .ok ⟨tok⟩) (f : String → Option ReqOpts → ρ)
    (code : Json) :
    (getUserIdByCode h code (logTrans f) [] =
      ([⟨h.apiPrefix ++ "user/getuserinfo?access_token=" ++ tok,
          some (ReqOpts.queryData
            (Json.obj [("code", code), ("agentid", Json.str h.agentid)]))⟩],
        .ok (f (h.apiPrefix ++ "user/getuserinfo?access_token=" ++ tok)
          (some (ReqOpts.queryData
            (Json.obj [("code", code), ("agentid", Json.str h.agentid)])))))) ∧
    (∀ (a : String) (trans : Trans σ ρ) (s : σ) (u v sid ul did fc iu ip it : Json)
      (redirect : String) (st sc : Option String),
      getCallbackIp { h with agentid := a } trans s = getCallbackIp h trans s ∧
      createUser { h with agentid := a } u trans s = createUser h u trans s ∧
      updateUser { h with agentid := a } v trans s = updateUser h v trans s ∧
      deleteUserSingle { h with agentid := a } sid trans s = deleteUserSingle h sid trans s ∧
      deleteUserBatch { h with agentid := a } ul trans s = deleteUserBatch h ul trans s ∧
      getUser { h with agentid := a } sid trans s = getUser h sid trans s ∧
      getDepartmentUsers { h with agentid := a } did fc trans s =
        getDepartmentUsers h did fc trans s ∧
      getDepartmentUsersDetail { h with agentid := a } did fc trans s =
        getDepartmentUsersDetail h did fc trans s ∧
      inviteUser { h with agentid := a } iu ip it trans s = inviteUser h iu ip it trans s ∧
      getAuthorizeURL { h with agentid := a } redirect st sc =
        getAuthorizeURL h redirect st sc) := by
  constructor
  · simp [getUserIdByCode, logTrans, hok]
  · intro a trans s u v sid ul did fc iu ip it redirect st sc
    refine ⟨?_, ?_, ?_, ?_, ?_, ?_, ?_, ?_, ?_, ?_⟩ <;>
      simp [getCallbackIp, createUser, updateUser, deleteUserSingle, deleteUserBatch,
        getUser, getDepartmentUsers, getDepartmentUsersDetail, inviteUser, getAuthorizeURL]

/-- Witness for C8 at a concrete host and code. -/
theorem getUserIdByCode_sends_code_and_agentid_instance :
    sampleHost.ensureAccessToken = .ok ⟨"TOK"⟩ ∧
    ((getUserIdByCode sampleHost (Json.str "THE_CODE") (logTrans echoReq) [] =
      ([⟨sampleHost.apiPrefix ++ "user/getuserinfo?access_token=" ++ "TOK",
          some (ReqOpts.queryData (Json.obj [("code", Json.str "THE_CODE"),
            ("agentid", Json.str sampleHost.agentid)]))⟩],
        .ok (echoReq (sampleHost.apiPrefix ++ "user/getuserinfo?access_token=" ++ "TOK")
          (some (ReqOpts.queryData (Json.obj [("code", Json.str "THE_CODE"),
            ("agentid", Json.str sampleHost.agentid)])))))) ∧
    (∀ (a : String) (trans : Trans (List Request) (String × Option ReqOpts))
      (s : List Request) (u v sid ul did fc iu ip it : Json)
      (redirect : String) (st sc : Option String),
      getCallbackIp { sampleHost with agentid := a } trans s =
        getCallbackIp sampleHost trans s ∧
      createUser { sampleHost with agentid := a } u trans s =
        createUser sampleHost u trans s ∧
      updateUser { sampleHost with agentid := a } v trans s =
        updateUser sampleHost v trans s ∧
      deleteUserSingle { sampleHost with agentid := a } sid trans s =
        deleteUserSingle sampleHost sid trans s ∧
      deleteUserBatch { sampleHost with agentid := a } ul trans s =
        deleteUserBatch sampleHost ul trans s ∧
      getUser { sampleHost with agentid := a } sid trans s =
        getUser sampleHost sid trans s ∧
      getDepartmentUsers { sampleHost with agentid := a } did fc trans s =
        getDepartmentUsers sampleHost did fc trans s ∧
      getDepartmentUsersDetail { sampleHost with agentid := a } did fc trans s =
        getDepartmentUsersDetail sampleHost did fc trans s ∧
      inviteUser { sampleHost with agentid := a } iu ip it trans s =
        inviteUser sampleHost iu ip it trans s ∧
      getAuthorizeURL { sampleHost with agentid := a } redirect st sc =
        getAuthorizeURL sampleHost redirect st sc)) :=
  ⟨rfl, getUserIdByCode_sends_code_and_agentid sampleHost "TOK" rfl echoReq
    (Json.str "THE_CODE")⟩

theorem qsEscape_appid : qsEscape "appid" = "appid" := by decide

theorem qsEscape_redirect_uri : qsEscape "redirect_uri" = "redirect_uri" := by decide

theorem qsEscape_response_type : qsEscape "response_type" = "response_type" := by decide

theorem qsEscape_code : qsEscape "code" = "code" := by decide

theorem qsEscape_scope : qsEscape "scope" = "scope" := by decide

theorem qsEscape_state : qsEscape "state" = "state" := by decide

theorem qsEscape_cb : qsEscape "https://cb.example" = "https%3A%2F%2Fcb.example" := by decide

/-- The authorize URL splits into the fixed pieces around the four
escaped values (corp id, redirect, resolved scope, resolved state). -/
theorem getAuthorizeURL_data {ε : Type} (self : Host ε) (r : String) (st sc : Option String) :
    (getAuthorizeURL self r st sc).data =
      "https://open.weixin.qq.com/connect/oauth2/authorize?appid=".data ++
        (qsEscape self.corpid).data ++ "&redirect_uri=".data ++ (qsEscape r).data ++
        "&response_type=code&scope=".data ++
        (qsEscape (jsOrDefault sc "snsapi_base")).data ++
        "&state=".data ++ (qsEscape (jsOrDefault st "")).data ++
        "#wechat_redirect".data := by
  have h1 : "https://open.weixin.qq.com/connect/oauth2/authorize?appid=".data =
      "https://open.weixin.qq.com/connect/oauth2/authorize".data ++ "?".data ++
        "appid".data ++ "=".data := by decide
  have h2 : "&redirect_uri=".data = "&".data ++ "redirect_uri".data ++ "=".data := by decide
  have h3 : "&response_type=code&scope=".data =
      "&".data ++ "response_type".data ++ "=".data ++ "code".data ++ "&".data ++
        "scope".data ++ "=".data := by decide
  have h4 : "&state=".data = "&".data ++ "state".data ++ "=".data := by decide
  rw [h1, h2, h3, h4]
  simp [getAuthorizeURL, qsStringify, qsEscape_appid, qsEscape_redirect_uri,
    qsEscape_response_type, qsEscape_code, qsEscape_scope, qsEscape_state,
    String.data_append, List.append_assoc]

/-- C4: on redirect `https://cb.example` and state `s1`, the authorize
URL with no scope contains `scope=snsapi_base`, `state=s1` and the
escaped redirect, and ends with `#wechat_redirect`; passing scope
`snsapi_userinfo` produces `scope=snsapi_userinfo` instead. -/
theorem getAuthorizeURL_example_contents {ε : Type} (h : Host ε) :
    "scope=snsapi_base".data <:+:
      (getAuthorizeURL h "https://cb.example" (some "s1") none).data ∧
    "state=s1".data <:+:
      (getAuthorizeURL h "https://cb.example" (some "s1") none).data ∧
    "redirect_uri=https%3A%2F%2Fcb.example".data <:+:
      (getAuthorizeURL h "https://cb.example" (some "s1") none).data ∧
    "#wechat_redirect".data <:+
      (getAuthorizeURL h "https://cb.example" (some "s1") none).data ∧
    "scope=snsapi_userinfo".data <:+:
      (getAuthorizeURL h "https://cb.example" (some "s1") (some "snsapi_userinfo")).data := by
  have hu := getAuthorizeURL_data h "https://cb.example" (some "s1") none
  have j1 : qsEscape (jsOrDefault none "snsapi_base") = "snsapi_base" := by decide
  have j2 : qsEscape (jsOrDefault (some "s1") "") = "s1" := by decide
  rw [qsEscape_cb, j1, j2] at hu
  have hsplit :
      ("&redirect_uri=https%3A%2F%2Fcb.example&response_type=code&scope=snsapi_base&state=s1#wechat_redirect" : String).data =
        "&redirect_uri=".data ++ "https%3A%2F%2Fcb.example".data ++
          "&response_type=code&scope=".data ++ "snsapi_base".data ++
          "&state=".data ++ "s1".data ++ "#wechat_redirect".data := by decide
  have hT : (getAuthorizeURL h "https://cb.example" (some "s1") none).data =
      ("https://open.weixin.qq.com/connect/oauth2/authorize?appid=".data ++
        (qsEscape h.corpid).data) ++
      ("&redirect_uri=https%3A%2F%2Fcb.example&response_type=code&scope=snsapi_base&state=s1#wechat_redirect" : String).data := by
    rw [hu, hsplit]
    simp [List.append_assoc]
  have hsuf :
      ("&redirect_uri=https%3A%2F%2Fcb.example&response_type=code&scope=snsapi_base&state=s1#wechat_redirect" : String).data <:+
        (getAuthorizeURL h "https://cb.example" (some "s1") none).data :=
    ⟨"https://open.weixin.qq.com/connect/oauth2/authorize?appid=".data ++
      (qsEscape h.corpid).data, hT.symm⟩
  have hu2 := getAuthorizeURL_data h "https://cb.example" (some "s1") (some "snsapi_userinfo")
  have j3 : qsEscape (jsOrDefault (some "snsapi_userinfo") "snsapi_base") =
      "snsapi_userinfo" := by decide
  rw [qsEscape_cb, j3, j2] at hu2
  have hsplit2 :
      ("&redirect_uri=https%3A%2F%2Fcb.example&response_type=code&scope=snsapi_userinfo&state=s1#wechat_redirect" : String).data =
        "&redirect_uri=".data ++ "https%3A%2F%2Fcb.example".data ++
          "&response_type=code&scope=".data ++ "snsapi_userinfo".data ++
          "&state=".data ++ "s1".data ++ "#wechat_redirect".data := by decide
  have hT2 : (getAuthorizeURL h "https://cb.example" (some "s1") (some "snsapi_userinfo")).data =
      ("https://open.weixin.qq.com/connect/oauth2/authorize?appid=".data ++
        (qsEscape h.corpid).data) ++
      ("&redirect_uri=https%3A%2F%2Fcb.example&response_type=code&scope=snsapi_userinfo&state=s1#wechat_redirect" : String).data := by
    rw [hu2, hsplit2]
    simp [List.append_assoc]
  have hsuf2 :
      ("&redirect_uri=https%3A%2F%2Fcb.example&response_type=code&scope=snsapi_userinfo&state=s1#wechat_redirect" : String).data <:+
        (getAuthorizeURL h "https://cb.example" (some "s1") (some "snsapi_userinfo")).data :=
    ⟨"https://open.weixin.qq.com/connect/oauth2/authorize?appid=".data ++
      (qsEscape h.corpid).data, hT2.symm⟩
  refine ⟨List.IsInfix.trans (by decide) hsuf.isInfix,
    List.IsInfix.trans (by decide) hsuf.isInfix,
    List.IsInfix.trans (by decide) hsuf.isInfix,
    List.IsSuffix.trans (by decide) hsuf,
    List.IsInfix.trans (by decide) hsuf2.isInfix⟩

/-- C9: `getAuthorizeURL` never consults the token accessor or the
transport: its result depends only on the corp id among all host
fields (even across different error types), and the produced URL always
carries `response_type=code`. -/
theorem getAuthorizeURL_pure_function_of_corpid {ε₁ ε₂ : Type}
    (h1 : Host ε₁) (h2 : Host ε₂) (hc : h1.corpid = h2.corpid)
    (redirect : String) (st sc : Option String) :
    getAuthorizeURL h1 redirect st sc = getAuthorizeURL h2 redirect st sc ∧
    "response_type=code".data <:+: (getAuthorizeURL h1 redirect st sc).data := by
  constructor
  · simp [getAuthorizeURL, hc]
  · have hu := getAuthorizeURL_data h1 redirect st sc
    have hM : "&response_type=code&scope=".data <:+:
        (getAuthorizeURL h1 redirect st sc).data :=
      ⟨"https://open.weixin.qq.com/connect/oauth2/authorize?appid=".data ++
          (qsEscape h1.corpid).data ++ "&redirect_uri=".data ++ (qsEscape redirect).data,
        (qsEscape (jsOrDefault sc "snsapi_base")).data ++ "&state=".data ++
          (qsEscape (jsOrDefault st "")).data ++ "#wechat_redirect".data,
        by rw [hu]; simp [List.append_assoc]⟩
    exact List.IsInfix.trans (by decide) hM

/-- Witness for C9: two hosts agreeing only on the corp id (one with a
resolving accessor, one with a rejecting accessor). -/
theorem getAuthorizeURL_pure_function_of_corpid_instance :
    getAuthorizeURL sampleHost "https://cb.example" none none =
      getAuthorizeURL failingHost "https://cb.example" none none ∧
    "response_type=code".data <:+:
      (getAuthorizeURL sampleHost "https://cb.example" none none).data :=
  getAuthorizeURL_pure_function_of_corpid sampleHost failingHost rfl
    "https://cb.example" none none

/-- C10: defaults are applied by truthiness: with state absent or the
explicit empty string the URL carries an empty `state=` value right
before the fragment, with any falsy scope the URL carries the default
`scope=snsapi_base`, and an explicitly empty scope yields exactly the
same URL as an absent one. -/
theorem getAuthorizeURL_truthiness_defaults {ε : Type} (h : Host ε) (redirect : String) :
    (∀ sc : Option String,
      "&state=#wechat_redirect".data <:+ (getAuthorizeURL h redirect none sc).data) ∧
    (∀ sc : Option String,
      "&state=#wechat_redirect".data <:+ (getAuthorizeURL h redirect (some "") sc).data) ∧
    (∀ st : Option String,
      "scope=snsapi_base".data <:+: (getAuthorizeURL h redirect st none).data) ∧
    (∀ st : Option String,
      getAuthorizeURL h redirect st (some "") = getAuthorizeURL h redirect st none) := by
  have hstatesplit : ("&state=#wechat_redirect" : String).data =
      "&state=".data ++ "#wechat_redirect".data := by decide
  have henil : ("" : String).data = ([] : List Char) := rfl
  refine ⟨?_, ?_, ?_, ?_⟩
  · intro sc
    have hu := getAuthorizeURL_data h redirect none sc
    have j : qsEscape (jsOrDefault none "") = "" := by decide
    rw [j] at hu
    refine ⟨"https://open.weixin.qq.com/connect/oauth2/authorize?appid=".data ++
      (qsEscape h.corpid).data ++ "&redirect_uri=".data ++ (qsEscape redirect).data ++
      "&response_type=code&scope=".data ++
      (qsEscape (jsOrDefault sc "snsapi_base")).data, ?_⟩
    rw [hstatesplit, hu]
    simp [List.append_assoc, henil]
  · intro sc
    have hu := getAuthorizeURL_data h redirect (some "") sc
    have j : qsEscape (jsOrDefault (some "") "") = "" := by decide
    rw [j] at hu
    refine ⟨"https://open.weixin.qq.com/connect/oauth2/authorize?appid=".data ++
      (qsEscape h.corpid).data ++ "&redirect_uri=".data ++ (qsEscape redirect).data ++
      "&response_type=code&scope=".data ++
      (qsEscape (jsOrDefault sc "snsapi_base")).data, ?_⟩
    rw [hstatesplit, hu]
    simp [List.append_assoc, henil]
  · intro st
    have hu := getAuthorizeURL_data h redirect st none
    have j : qsEscape (jsOrDefault none "snsapi_base") = "snsapi_base" := by decide
    rw [j] at hu
    have hsplitM : ("&response_type=code&scope=snsapi_base" : String).data =
        "&response_type=code&scope=".data ++ "snsapi_base".data := by decide
    have hM : ("&response_type=code&scope=snsapi_base" : String).data <:+:
        (getAuthorizeURL h redirect st none).data :=
      ⟨"https://open.weixin.qq.com/connect/oauth2/authorize?appid=".data ++
          (qsEscape h.corpid).data ++ "&redirect_uri=".data ++ (qsEscape redirect).data,
        "&state=".data ++ (qsEscape (jsOrDefault st "")).data ++ "#wechat_redirect".data,
        by rw [hsplitM, hu]; simp [List.append_assoc]⟩
    exact List.IsInfix.trans (by decide) hM
  · intro st
    have e1 : jsOrDefault (some "") "snsapi_base" = "snsapi_base" := by decide
    have e2 : jsOrDefault none "snsapi_base" = "snsapi_base" := rfl
    simp [getAuthorizeURL, e1, e2]

end CoWechat
